import Mathlib

/-!
Verification of the Kaminario K2 Cinder volume driver
(cinder/volume/drivers/kaminario/kaminario_common.py) against its
natural-language specification.

The driver is shallowly embedded: pure helpers become Lean functions on
strings and naturals; the array-side state touched by an operation becomes
an explicit record threaded through the operation; the observable side
effects an operation performs (deletions, state transitions, polling,
lock handling) are recorded as explicit event traces so that ordering
properties can be stated and proved.
-/

/-! ### Definitions: the shallow embedding of the driver -/

/-- Embeds get_volume_group_name: "cvg-{0}".format(vid). -/
def get_volume_group_name (vid : String) : String := "cvg-" ++ vid

/-- Embeds get_volume_name: "cv-{0}".format(vid). -/
def get_volume_name (vid : String) : String := "cv-" ++ vid

/-- Embeds get_session_name: "ssn-{0}".format(vid). -/
def get_session_name (vid : String) : String := "ssn-" ++ vid

/-- Embeds get_snap_name: "cs-{0}".format(sid). -/
def get_snap_name (sid : String) : String := "cs-" ++ sid

/-- Embeds get_view_name: "cview-{0}".format(vid). -/
def get_view_name (vid : String) : String := "cview-" ++ vid

/-- Embeds get_rep_name: "r{0}".format(name). -/
def get_rep_name (name : String) : String := "r" ++ name

/-- units.Mi, the array's native block unit used as the capacity divisor. -/
def units_Mi : Nat := 1048576

/-- An array-side volume as seen by the size query: its name and its size
in native units. -/
structure K2Vol where
  name : String
  size : Nat
deriving DecidableEq

/-- Embeds manage_existing_get_size: search the volumes collection for the
existing_ref source-name; on a hit return math.ceil(vol.size / units.Mi);
on zero hits raise ManageExistingInvalidReference. -/
def manage_existing_get_size (vols : List K2Vol) (source_name : String) : Except String Nat :=
  match vols.find? (fun v => v.name == source_name) with
  | some vol => Except.ok (Int.toNat ⌈(vol.size : ℚ) / (units_Mi : ℚ)⌉)
  | none => Except.error "Unable to get size of manage volume."

/-- MAX_K2_RETRY from the module header. -/
def MAX_K2_RETRY : Nat := 5

/-- K2_RETRY_ERRORS, the transient-busy markers. -/
def K2_RETRY_ERRORS : List String :=
  ["MC_ERR_BUSY", "MC_ERR_BUSY_SPECIFIC", "MC_ERR_INPROGRESS", "MC_ERR_START_TIMEOUT"]

def listStartsWith : List Char → List Char → Bool
  | [], _ => true
  | _ :: _, [] => false
  | p :: ps, s :: ss => p == s && listStartsWith ps ss

def listHasSub (pat : List Char) : List Char → Bool
  | [] => listStartsWith pat []
  | s :: ss => listStartsWith pat (s :: ss) || listHasSub pat ss

/-- Python substring containment, the meaning of er in err_msg. -/
def strContains (msg pat : String) : Bool := listHasSub pat.data msg.data

/-- Embeds KrestWrap._should_retry: an error is retryable iff its status
code is 400 and its body contains one of the transient-busy markers. -/
def _should_retry (err_code : Nat) (err_msg : String) : Bool :=
  if err_code == 400 then K2_RETRY_ERRORS.any (fun er => strContains err_msg er)
  else false

/-- The outcome of one underlying transport call, indexed by attempt. -/
inductive TransportResult where
  | ok (v : Nat)
  | httpErr (code : Nat) (body : String)
deriving DecidableEq

/-- The errors one _request attempt can raise: the typed retryable wrapper
or the re-raised HTTP error. -/
inductive KErr where
  | retryable (body : String)
  | http (code : Nat) (body : String)
deriving DecidableEq

/-- Lock events of the per-endpoint krestlock. -/
inductive LockEv where
  | acquire
  | release
deriving DecidableEq

/-- One body of KrestWrap._request: take the lock, run the transport call,
classify an HTTP error as retryable or re-raise it, release the lock on
every path. -/
def attempt_request (t : TransportResult) : Except KErr Nat × List LockEv :=
  match t with
  | TransportResult.ok v => (Except.ok v, [LockEv.acquire, LockEv.release])
  | TransportResult.httpErr c b =>
      if _should_retry c b then
        (Except.error (KErr.retryable b), [LockEv.acquire, LockEv.release])
      else
        (Except.error (KErr.http c b), [LockEv.acquire, LockEv.release])

/-- Modelled from the spec: the retry decorator applied to _request (cinder
utils.retry, whose source lies outside this repository) re-invokes the body
only on the typed retryable error, up to the fixed maximum number of
attempts in total, and surfaces the failure after the final attempt; any
other error propagates at once. The second result component counts the
attempts made and the third accumulates the lock events of every attempt. -/
def retry_call (transport : Nat → TransportResult) : Nat → Nat → Except KErr Nat × Nat × List LockEv
  | i, 0 => (Except.error (KErr.retryable ""), i, [])
  | i, Nat.succ rem =>
      match attempt_request (transport i) with
      | (Except.error (KErr.retryable b), evs) =>
          match rem with
          | 0 => (Except.error (KErr.retryable b), i + 1, evs)
          | Nat.succ rem2 =>
              let r := retry_call transport (i + 1) (Nat.succ rem2)
              (r.1, r.2.1, evs ++ r.2.2)
      | (other, evs) => (other, i + 1, evs)

/-- Embeds the decorated KrestWrap._request entry point. -/
def _request (transport : Nat → TransportResult) : Except KErr Nat × Nat × List LockEv :=
  retry_call transport 0 MAX_K2_RETRY

/-- The lock trace of n attempts: n acquire/release pairs in sequence. -/
def acqRelTrace : Nat → List LockEv
  | 0 => []
  | Nat.succ n => LockEv.acquire :: LockEv.release :: acqRelTrace n

/-- A transport outcome that _request classifies as transient-busy. -/
def isBusyResult : TransportResult → Bool
  | TransportResult.ok _ => false
  | TransportResult.httpErr c b => _should_retry c b

/-- A transport transient-busy on the first two attempts and successful on
the third. -/
def busy2_transport : Nat → TransportResult := fun i =>
  if i < 2 then TransportResult.httpErr 400 "Error: MC_ERR_BUSY try later" else TransportResult.ok 7

/-- A transport transient-busy on every attempt. -/
def busy_always_transport : Nat → TransportResult := fun _ =>
  TransportResult.httpErr 400 "Error: MC_ERR_INPROGRESS wait"

/-- The system/capacity record returned by the array, with the four
counters update_volume_stats reads. -/
structure K2Capacity where
  free : Int
  total : Int
  provisioned : Int
  provisioned_volumes : Int
deriving DecidableEq

/-- The two configuration values feeding the oversubscription computation:
the auto-calculation flag and the statically configured fallback value. -/
structure K2StatsConf where
  auto_calc_max_oversub : Bool
  max_over_subscription : ℚ
deriving DecidableEq

/-- The stats snapshot fields computed by update_volume_stats (the numeric
fields; the constant string/boolean entries are omitted). -/
structure K2Stats where
  free_capacity_gb : ℚ
  total_capacity_gb : ℚ
  provisioned_capacity_gb : ℚ
  total_volumes : Int
  max_oversub : ℚ
deriving DecidableEq

/-- Embeds update_volume_stats: the ratio is provisioned_volumes divided by
(total - free) when the auto-calc option is set, cap.provisioned is truthy
and (total - free) is nonzero; otherwise the configured static value. The
capacity figures are scaled by units.Mi and the volume count drops one
reserved object. -/
def update_volume_stats (conf : K2StatsConf) (cap : K2Capacity) (search_total : Int) : K2Stats :=
  let provisioned_vol := cap.provisioned_volumes
  let r : ℚ :=
    if conf.auto_calc_max_oversub ∧ cap.provisioned ≠ 0 ∧ cap.total - cap.free ≠ 0 then
      (provisioned_vol : ℚ) / ((cap.total - cap.free : Int) : ℚ)
    else conf.max_over_subscription
  { free_capacity_gb := (cap.free : ℚ) / (units_Mi : ℚ),
    total_capacity_gb := (cap.total : ℚ) / (units_Mi : ℚ),
    provisioned_capacity_gb := (provisioned_vol : ℚ) / (units_Mi : ℚ),
    total_volumes := search_total - 1,
    max_oversub := r }

/-- The source-endpoint array state a clone touches: volume groups,
volumes, and mappings as (volume name, host name) pairs. -/
structure SrcArrayState where
  vgs : List String
  vols : List String
  mappings : List (String × String)
deriving DecidableEq

/-- The observable steps of create_cloned_volume after validation. -/
inductive CloneEv where
  | attach (volname : String)
  | new_volume_group (name : String)
  | new_volume (name : String)
  | copy_volume
  | detach (volname : String)
deriving DecidableEq

/-- Embeds create_cloned_volume: count the mappings of the source volume;
any hit rejects the clone before any other step; otherwise attach the
source, create the destination group and volume, attach it, copy, and
detach both. -/
def create_cloned_volume (st : SrcArrayState) (volume_id src_id : String) :
    Except String SrcArrayState × List CloneEv :=
  let clone_name := get_volume_name volume_id
  let src_name := get_volume_name src_id
  let src_map_total := (st.mappings.filter (fun m => m.1 == src_name)).length
  if src_map_total ≠ 0 then
    (Except.error "K2 driver does not support clone of a attached volume.", [])
  else
    let vg_name := get_volume_group_name volume_id
    let st1 : SrcArrayState :=
      { st with vgs := st.vgs ++ [vg_name], vols := st.vols ++ [clone_name] }
    (Except.ok st1,
     [CloneEv.attach src_name, CloneEv.new_volume_group vg_name,
      CloneEv.new_volume clone_name, CloneEv.attach clone_name, CloneEv.copy_volume,
      CloneEv.detach clone_name, CloneEv.detach src_name])

/-- One endpoint's object store as the replica orchestration sees it. -/
structure EPState where
  vgs : List String
  vols : List String
  ssns : List String
deriving DecidableEq

/-- Which endpoint a delete attempt is issued against. -/
inductive EPName where
  | src
  | tgt
deriving DecidableEq

/-- A best-effort delete attempt recorded with its endpoint, resource
collection and object name. -/
inductive DelEv where
  | del_attempt (ep : EPName) (url : String) (name : String)
deriving DecidableEq

/-- Embeds _delete_by_ref on one collection: search by name and delete
every hit; a search with zero hits deletes nothing. -/
def _delete_by_ref (objs : List String) (name : String) : List String :=
  objs.filter (fun x => !(x == name))

/-- The three fallible steps inside the try block of
_create_volume_replica. -/
inductive RepFail where
  | srcSsnSave
  | peerVolSave
  | inSyncSave
deriving DecidableEq

/-- Outcome of _create_volume_replica. -/
inductive RepResult where
  | success
  | failed (cause : String)
deriving DecidableEq

/-- The cause string attached to a failing step. -/
def repFailCause : RepFail → String
  | RepFail.srcSsnSave => "source session save failed"
  | RepFail.peerVolSave => "peer volume save failed"
  | RepFail.inSyncSave => "in_sync transition failed"

/-- The six-delete compensation chain of the except branch of
_create_volume_replica, in source order: source session, target session,
target volume, source volume, target group, source group. -/
def replica_rollback (vid vg_name vol_name : String) (src tgt : EPState) :
    EPState × EPState × List DelEv :=
  let session_name := get_session_name vid
  let rsession_name := get_rep_name session_name
  let rvg_name := get_rep_name vg_name
  let rvol_name := get_rep_name vol_name
  let src1 := { src with ssns := _delete_by_ref src.ssns session_name }
  let tgt1 := { tgt with ssns := _delete_by_ref tgt.ssns rsession_name }
  let tgt2 := { tgt1 with vols := _delete_by_ref tgt1.vols rvol_name }
  let src2 := { src1 with vols := _delete_by_ref src1.vols vol_name }
  let tgt3 := { tgt2 with vgs := _delete_by_ref tgt2.vgs rvg_name }
  let src3 := { src2 with vgs := _delete_by_ref src2.vgs vg_name }
  (src3, tgt3,
   [DelEv.del_attempt EPName.src "replication/sessions" session_name,
    DelEv.del_attempt EPName.tgt "replication/sessions" rsession_name,
    DelEv.del_attempt EPName.tgt "volumes" rvol_name,
    DelEv.del_attempt EPName.src "volumes" vol_name,
    DelEv.del_attempt EPName.tgt "volume_groups" rvg_name,
    DelEv.del_attempt EPName.src "volume_groups" vg_name])

/-- Embeds _create_volume_replica. peer_found reflects the peer search at
the head of the routine; failure names the step of the try block whose save
raises (none when all saves succeed). A peer-lookup failure raises the
driver error directly, outside the try block, so no compensation runs. On a
step failure the effects of the previous steps are in place: a saved source
session materializes the source session and, through the array, the remote
session and remote group; a saved peer volume materializes the remote
volume. -/
def _create_volume_replica (peer_found : Bool) (failure : Option RepFail)
    (vid vg_name vol_name : String) (src tgt : EPState) :
    RepResult × EPState × EPState × List DelEv :=
  let session_name := get_session_name vid
  let rsession_name := get_rep_name session_name
  let rvg_name := get_rep_name vg_name
  let rvol_name := get_rep_name vol_name
  if peer_found = false then
    (RepResult.failed "Unable to find K2peer in source K2:", src, tgt, [])
  else
    match failure with
    | some RepFail.srcSsnSave =>
        let r := replica_rollback vid vg_name vol_name src tgt
        (RepResult.failed (repFailCause RepFail.srcSsnSave), r.1, r.2.1, r.2.2)
    | failure2 =>
      let src1 := { src with ssns := src.ssns ++ [session_name] }
      let tgt1 := { tgt with ssns := tgt.ssns ++ [rsession_name],
                             vgs := tgt.vgs ++ [rvg_name] }
      match failure2 with
      | some RepFail.peerVolSave =>
          let r := replica_rollback vid vg_name vol_name src1 tgt1
          (RepResult.failed (repFailCause RepFail.peerVolSave), r.1, r.2.1, r.2.2)
      | failure3 =>
        let tgt2 := { tgt1 with vols := tgt1.vols ++ [rvol_name] }
        match failure3 with
        | some RepFail.inSyncSave =>
            let r := replica_rollback vid vg_name vol_name src1 tgt2
            (RepResult.failed (repFailCause RepFail.inSyncSave), r.1, r.2.1, r.2.2)
        | _ => (RepResult.success, src1, tgt2, [])

/-- Replication session states used by the driver. -/
inductive SessState where
  | initializing
  | in_sync
  | suspended
  | idle
  | failed_over
deriving DecidableEq

/-- The observable steps of the graceful teardown: source-session state
writes and saves, target-session state checks and refreshes with the fixed
one-second sleep, and the deletions that follow. -/
inductive TdEv where
  | set_src (s : SessState)
  | save_src
  | obs_tgt (s : SessState)
  | refresh_tgt
  | sleep_one
  | delete_tgt
  | delete_src
  | delete_snapshots
  | delete_remote_vol
  | delete_remote_vg
deriving DecidableEq

/-- Embeds _check_for_status: while the cached target state differs from
the wanted status, refresh it (the stream supplies the state each re-fetch
returns) and sleep one second. The loop has no bound in the source; fuel
makes the embedding total and none models an execution that has not
terminated within the fuel. Returns the poll trace and the next stream
index. -/
def _check_for_status (stream : Nat → SessState) (status : SessState) :
    Nat → Nat → SessState → Option (List TdEv × Nat)
  | fuel, i, cur =>
    if cur = status then some ([TdEv.obs_tgt cur], i)
    else
      match fuel with
      | 0 => none
      | Nat.succ f =>
          match _check_for_status stream status f (i + 1) (stream i) with
          | none => none
          | some p => some (TdEv.obs_tgt cur :: TdEv.refresh_tgt :: TdEv.sleep_one :: p.1, p.2)

/-- The deletions that close the teardown, in source order: target
session, source session, snapshots of both groups, remote volume, remote
group. -/
def teardown_deletes : List TdEv :=
  [TdEv.delete_tgt, TdEv.delete_src, TdEv.delete_snapshots,
   TdEv.delete_remote_vol, TdEv.delete_remote_vg]

/-- The second half of _delete_volume_replica, entered with the first poll
phase's trace and stream position: poll the target until it reads idle,
then emit the full teardown trace. -/
def teardown_tail (stream : Nat → SessState) (fuel : Nat) (p : List TdEv × Nat) :
    Option (List TdEv) :=
  match _check_for_status stream SessState.idle fuel p.2 SessState.suspended with
  | none => none
  | some q =>
      some ([TdEv.set_src SessState.suspended, TdEv.save_src] ++ p.1 ++
            [TdEv.set_src SessState.idle, TdEv.save_src] ++ q.1 ++ teardown_deletes)

/-- Embeds _delete_volume_replica: set the source session to suspended and
save, poll the target session until it reads suspended; set it to idle and
save, poll until the target reads idle; then the deletions. tgt_init is
the target session state cached by the initial search. -/
def _delete_volume_replica (fuel : Nat) (tgt_init : SessState) (stream : Nat → SessState) :
    Option (List TdEv) :=
  match _check_for_status stream SessState.suspended fuel 0 tgt_init with
  | none => none
  | some p => teardown_tail stream fuel p

/-- Events a poll loop may emit: target-state checks, re-fetches and
sleeps; in particular no deletion. -/
def poll_ev : TdEv → Bool
  | TdEv.obs_tgt _ => true
  | TdEv.refresh_tgt => true
  | TdEv.sleep_one => true
  | _ => false

/-- A fake target session whose observed state lags the source by one
re-fetch: the initial cached state is in_sync, the first refresh reads
suspended, every later refresh reads idle. -/
def c2_stream : Nat → SessState := fun i =>
  if i = 0 then SessState.suspended else SessState.idle

/-- The teardown trace the lagging target produces. -/
def c2_trace : List TdEv :=
  [TdEv.set_src SessState.suspended, TdEv.save_src,
   TdEv.obs_tgt SessState.in_sync, TdEv.refresh_tgt, TdEv.sleep_one,
   TdEv.obs_tgt SessState.suspended,
   TdEv.set_src SessState.idle, TdEv.save_src,
   TdEv.obs_tgt SessState.suspended, TdEv.refresh_tgt, TdEv.sleep_one,
   TdEv.obs_tgt SessState.idle,
   TdEv.delete_tgt, TdEv.delete_src, TdEv.delete_snapshots,
   TdEv.delete_remote_vol, TdEv.delete_remote_vg]

/-- The target endpoint's store as failover sees it: the volume names
present there and the replication sessions with their states. -/
structure TgtArray where
  vols : List String
  ssns : List (String × SessState)
deriving DecidableEq

/-- Resolve a session name to its state: the first hit of the search, none
for zero hits. -/
def lookup_ssn : List (String × SessState) → String → Option SessState
  | [], _ => none
  | p :: rest, n => if p.1 == n then some p.2 else lookup_ssn rest n

/-- Saving a session state: replace the state of the first entry carrying
the name. -/
def set_ssn : List (String × SessState) → String → SessState → List (String × SessState)
  | [], _, _ => []
  | p :: rest, n, s => if p.1 == n then (p.1, s) :: rest else p :: set_ssn rest n s

/-- The per-volume entries of the update list failover_host returns. -/
inductive VolUpdate where
  | rep_failed_over (vid : String)
  | status_error (vid : String)
deriving DecidableEq

/-- Python truthiness of the secondary_id argument. -/
def truthyStr : Option String → Bool
  | none => false
  | some s => !(s == "")

/-- Embeds _failover_volume: fetch the target session hits[0] (an absent
session raises the hits[0] index error); when its state is in_sync set it
to failed_over and save, otherwise leave it untouched. -/
def _failover_volume (arr : TgtArray) (vid : String) : Except String TgtArray :=
  let rsession_name := get_rep_name (get_session_name vid)
  match lookup_ssn arr.ssns rsession_name with
  | none => Except.error "IndexError: list index out of range"
  | some st =>
      if st = SessState.in_sync then
        Except.ok { arr with ssns := set_ssn arr.ssns rsession_name SessState.failed_over }
      else Except.ok arr

/-- The loop body of failover_host over the volume batch: volumes whose
replication-name volume exists on the target are failed over and reported
failed-over, the others are reported errored. -/
def failover_loop (arr : TgtArray) : List String → Except String (List VolUpdate × TgtArray)
  | [] => Except.ok ([], arr)
  | vid :: rest =>
      let rv := get_rep_name (get_volume_name vid)
      if arr.vols.count rv ≠ 0 then
        match _failover_volume arr vid with
        | Except.error e => Except.error e
        | Except.ok arr2 =>
            match failover_loop arr2 rest with
            | Except.error e => Except.error e
            | Except.ok p => Except.ok (VolUpdate.rep_failed_over vid :: p.1, p.2)
      else
        match failover_loop arr rest with
        | Except.error e => Except.error e
        | Except.ok p => Except.ok (VolUpdate.status_error vid :: p.1, p.2)

/-- Embeds failover_host: a truthy secondary_id naming a backend other than
the configured replica is rejected before the loop; otherwise the batch is
processed and the replica backend_id is returned with the updates. -/
def failover_host (replica_backend : String) (secondary_id : Option String)
    (volumes : List String) (arr : TgtArray) :
    Except String (String × List VolUpdate × TgtArray) :=
  if truthyStr secondary_id ∧ secondary_id ≠ some replica_backend then
    Except.error "Failover requested on non replicated backend."
  else
    match failover_loop arr volumes with
    | Except.error e => Except.error e
    | Except.ok p => Except.ok (replica_backend, p.1, p.2)

/-- The update failover_host reports for one volume, as a function of the
target store's volume listing. -/
def failover_update (arr : TgtArray) (vid : String) : VolUpdate :=
  if arr.vols.count (get_rep_name (get_volume_name vid)) ≠ 0 then
    VolUpdate.rep_failed_over vid
  else VolUpdate.status_error vid

/-- The driver's two endpoint handles: self.client and self.target,
identified by opaque endpoint ids. -/
structure DriverEndpoints where
  client : Nat
  target : Nat
deriving DecidableEq

/-- The operations that branch on volume.replication_status: each carries
the status of the volume it is called for. -/
inductive DrvOp where
  | terminate_connection (replication_status : String)
  | get_volume_object (replication_status : String)
deriving DecidableEq

/-- One driver call: for a failed-over volume the handle self.client is
overwritten with self.target and the call is served by the target
endpoint; otherwise the current client endpoint serves it. Returns the new
driver state and the endpoint the call was issued against. -/
def op_step (d : DriverEndpoints) (o : DrvOp) : DriverEndpoints × Nat :=
  match o with
  | DrvOp.terminate_connection rs =>
      if rs == "failed-over" then ({ d with client := d.target }, d.target)
      else (d, d.client)
  | DrvOp.get_volume_object rs =>
      if rs == "failed-over" then ({ d with client := d.target }, d.target)
      else (d, d.client)

/-- A sequence of driver calls, collecting the endpoint each was issued
against. -/
def run_ops (d : DriverEndpoints) : List DrvOp → DriverEndpoints × List Nat
  | [] => (d, [])
  | o :: rest =>
      let s := op_step d o
      let r := run_ops s.1 rest
      (r.1, s.2 :: r.2)

/-- The character class of the regex [^0-9a-zA-Z-_] in
get_initiator_host_name: a character is kept iff it is a digit, an ASCII
letter, a hyphen or an underscore. -/
def k2_char_ok (c : Char) : Bool :=
  decide ((48 ≤ c.toNat ∧ c.toNat ≤ 57) ∨ (97 ≤ c.toNat ∧ c.toNat ≤ 122) ∨
    (65 ≤ c.toNat ∧ c.toNat ≤ 90) ∨ c = '-' ∨ c = '_')

/-- One character of re.sub: disallowed characters are replaced by an
underscore. -/
def sanitize_char (c : Char) : Char := if k2_char_ok c then c else '_'

/-- Embeds get_initiator_host_name: re.sub over the host string followed by
the python slice [:32]. -/
def get_initiator_host_name (host : String) : String :=
  String.mk ((host.data.map sanitize_char).take 32)

/-! ### Theorems -/

lemma string_append_left_cancel {p a b : String} (h : p ++ a = p ++ b) : a = b := by
  have hd : (p ++ a).data = (p ++ b).data := by rw [h]
  simp only [String.data_append] at hd
  exact String.ext (List.append_cancel_left hd)

lemma toNat_ceil_div_Mi (s : Nat) :
    Int.toNat ⌈(s : ℚ) / (units_Mi : ℚ)⌉ = (s + units_Mi - 1) / units_Mi := by
  have hA := Nat.div_add_mod (s + units_Mi - 1) units_Mi
  have hB : (s + units_Mi - 1) % units_Mi < units_Mi :=
    Nat.mod_lt _ (by norm_num [units_Mi])
  set n := (s + units_Mi - 1) / units_Mi with hn
  unfold units_Mi at hA hB
  have h1 : s ≤ n * 1048576 := by omega
  have h2 : n * 1048576 < s + 1048576 := by omega
  have hpos : (0 : ℚ) < ((units_Mi : Nat) : ℚ) := by norm_num [units_Mi]
  have key : ⌈(s : ℚ) / (units_Mi : ℚ)⌉ = (n : ℤ) := by
    rw [Int.ceil_eq_iff]
    constructor
    · rw [lt_div_iff₀ hpos]
      have h2Q : ((n : ℚ)) * 1048576 < (s : ℚ) + 1048576 := by exact_mod_cast h2
      have hMi : ((units_Mi : Nat) : ℚ) = 1048576 := by norm_num [units_Mi]
      rw [hMi]
      push_cast
      linarith
    · rw [div_le_iff₀ hpos]
      have h1Q : (s : ℚ) ≤ (n : ℚ) * 1048576 := by exact_mod_cast h1
      have hMi : ((units_Mi : Nat) : ℚ) = 1048576 := by norm_num [units_Mi]
      rw [hMi]
      push_cast
      linarith
  rw [key]
  exact Int.toNat_natCast n

/-- C6: when the array holds a volume with the referenced name, the size
query returns the ceiling of size over the capacity unit (the least whole
unit count covering the size, also when the size is not an exact multiple);
when the search has zero hits it raises the invalid-reference error. -/
theorem C6_manage_existing_get_size (vols : List K2Vol) (ref : String) :
    (∀ vol, vols.find? (fun v => v.name == ref) = some vol →
      manage_existing_get_size vols ref =
        Except.ok ((vol.size + units_Mi - 1) / units_Mi) ∧
      vol.size ≤ ((vol.size + units_Mi - 1) / units_Mi) * units_Mi ∧
      ((vol.size + units_Mi - 1) / units_Mi) * units_Mi < vol.size + units_Mi) ∧
    (vols.find? (fun v => v.name == ref) = none →
      manage_existing_get_size vols ref =
        Except.error "Unable to get size of manage volume.") := by
  constructor
  · intro vol hfind
    have hA := Nat.div_add_mod (vol.size + units_Mi - 1) units_Mi
    have hB : (vol.size + units_Mi - 1) % units_Mi < units_Mi :=
      Nat.mod_lt _ (by norm_num [units_Mi])
    refine ⟨?_, ?_, ?_⟩
    · simp only [manage_existing_get_size, hfind]
      rw [toNat_ceil_div_Mi]
    · unfold units_Mi at hA hB ⊢
      omega
    · unfold units_Mi at hA hB ⊢
      omega
  · intro hfind
    unfold manage_existing_get_size
    rw [hfind]

/-- Witness for C6: a volume of 3 units plus 5 extra bytes reports 4 units,
and an absent name reports the invalid-reference error. -/
theorem C6_manage_existing_get_size_witness :
    manage_existing_get_size [⟨"vol-x", 3145733⟩] "vol-x" =
      Except.ok ((3145733 + units_Mi - 1) / units_Mi) ∧
    (3145733 + units_Mi - 1) / units_Mi = 4 ∧
    manage_existing_get_size [] "vol-x" =
      Except.error "Unable to get size of manage volume." :=
  ⟨((C6_manage_existing_get_size [⟨"vol-x", 3145733⟩] "vol-x").1
      ⟨"vol-x", 3145733⟩ (by decide)).1,
   by decide,
   (C6_manage_existing_get_size [] "vol-x").2 (by decide)⟩

lemma attempt_request_busy {t : TransportResult} (h : isBusyResult t = true) :
    ∃ b, attempt_request t = (Except.error (KErr.retryable b), [LockEv.acquire, LockEv.release]) := by
  cases t with
  | ok v => simp [isBusyResult] at h
  | httpErr c b =>
      refine ⟨b, ?_⟩
      simp only [isBusyResult] at h
      simp [attempt_request, h]

lemma retry_call_busy_then_ok (transport : Nat → TransportResult) (v : Nat) :
    ∀ N i fuel, N < fuel →
      (∀ k, k < N → isBusyResult (transport (i + k)) = true) →
      transport (i + N) = TransportResult.ok v →
      retry_call transport i fuel = (Except.ok v, i + N + 1, acqRelTrace (N + 1)) := by
  intro N
  induction N with
  | zero =>
      intro i fuel hlt hbusy hok
      match fuel, hlt with
      | Nat.succ rem, _ =>
        simp only [Nat.add_zero] at hok
        simp [retry_call, hok, attempt_request, acqRelTrace]
  | succ n ih =>
      intro i fuel hlt hbusy hok
      match fuel, hlt with
      | Nat.succ rem, hlt =>
        have hrem : n < rem := Nat.lt_of_succ_lt_succ hlt
        have hbusy0 : isBusyResult (transport i) = true := by
          have := hbusy 0 (Nat.succ_pos n)
          simpa using this
        obtain ⟨b, hb⟩ := attempt_request_busy hbusy0
        match rem, hrem with
        | Nat.succ rem2, hrem =>
          have ihx := ih (i + 1) (Nat.succ rem2) hrem
            (fun k hk => by
              have := hbusy (k + 1) (Nat.succ_lt_succ hk)
              simpa [Nat.add_assoc, Nat.add_comm 1 k] using this)
            (by simpa [Nat.add_assoc, Nat.add_comm 1 n] using hok)
          simp only [retry_call, hb, ihx]
          have hnat : i + (n + 1) + 1 = i + 1 + n + 1 := by omega
          rw [hnat]
          simp [acqRelTrace]

lemma retry_call_all_busy (transport : Nat → TransportResult) :
    ∀ fuel i, 0 < fuel →
      (∀ k, k < fuel → isBusyResult (transport (i + k)) = true) →
      ∃ b, retry_call transport i fuel =
        (Except.error (KErr.retryable b), i + fuel, acqRelTrace fuel) := by
  intro fuel
  induction fuel with
  | zero => intro i h; omega
  | succ rem ih =>
      intro i hpos hbusy
      have hbusy0 : isBusyResult (transport i) = true := by
        have := hbusy 0 (Nat.succ_pos rem)
        simpa using this
      obtain ⟨b, hb⟩ := attempt_request_busy hbusy0
      cases rem with
      | zero =>
          exact ⟨b, by simp [retry_call, hb, acqRelTrace]⟩
      | succ rem2 =>
          obtain ⟨b2, hb2⟩ := ih (i + 1) (Nat.succ_pos rem2)
            (fun k hk => by
              have := hbusy (k + 1) (Nat.succ_lt_succ hk)
              simpa [Nat.add_assoc, Nat.add_comm 1 k] using this)
          refine ⟨b2, ?_⟩
          simp only [retry_call, hb, hb2]
          have hnat : i + (rem2 + 1 + 1) = i + 1 + (rem2 + 1) := by omega
          rw [hnat]
          simp [acqRelTrace]

/-- C3: through the resilient client, a transport that is transient-busy
(HTTP 400 with a marker in the body) for the first N attempts, N below the
maximum, and succeeds on attempt N+1 yields success after exactly N+1
attempts, each attempt holding and releasing the lock once; a transport
transient-busy on all 5 attempts surfaces the retryable failure after
exactly 5 attempts; an error with a different code or without a marker
propagates on the first attempt without retry. -/
theorem C3_request_retry :
    (∀ (transport : Nat → TransportResult) (N v : Nat), N < MAX_K2_RETRY →
      (∀ k, k < N → isBusyResult (transport k) = true) →
      transport N = TransportResult.ok v →
      _request transport = (Except.ok v, N + 1, acqRelTrace (N + 1))) ∧
    (∀ (transport : Nat → TransportResult),
      (∀ k, k < MAX_K2_RETRY → isBusyResult (transport k) = true) →
      ∃ b, _request transport =
        (Except.error (KErr.retryable b), MAX_K2_RETRY, acqRelTrace MAX_K2_RETRY)) ∧
    (∀ (transport : Nat → TransportResult) (c : Nat) (b : String),
      transport 0 = TransportResult.httpErr c b → _should_retry c b = false →
      _request transport = (Except.error (KErr.http c b), 1, acqRelTrace 1)) := by
  refine ⟨?_, ?_, ?_⟩
  · intro transport N v hlt hbusy hok
    have := retry_call_busy_then_ok transport v N 0 MAX_K2_RETRY hlt
      (fun k hk => by simpa using hbusy k hk) (by simpa using hok)
    simpa [_request] using this
  · intro transport hbusy
    have := retry_call_all_busy transport MAX_K2_RETRY 0
      (by norm_num [MAX_K2_RETRY])
      (fun k hk => by simpa using hbusy k hk)
    simpa [_request] using this
  · intro transport c b h0 hnr
    show retry_call transport 0 MAX_K2_RETRY = _
    simp [MAX_K2_RETRY, retry_call, h0, attempt_request, hnr, acqRelTrace]

/-- Witness for C3: the lagging transport succeeds on attempt 3 with three
lock acquire/release pairs; the always-busy transport fails after 5
attempts; a 503 propagates at once. -/
theorem C3_request_retry_witness :
    _request busy2_transport = (Except.ok 7, 3, acqRelTrace 3) ∧
    (∃ b, _request busy_always_transport =
      (Except.error (KErr.retryable b), MAX_K2_RETRY, acqRelTrace MAX_K2_RETRY)) ∧
    _request (fun _ => TransportResult.httpErr 503 "boom") =
      (Except.error (KErr.http 503 "boom"), 1, acqRelTrace 1) :=
  ⟨C3_request_retry.1 busy2_transport 2 7 (by norm_num [MAX_K2_RETRY])
      (by decide) (by decide),
   C3_request_retry.2.1 busy_always_transport (by decide),
   C3_request_retry.2.2 (fun _ => TransportResult.httpErr 503 "boom") 503 "boom"
      rfl (by decide)⟩

/-- C7 counterexample: with auto-calc enabled, free=100, total=1000 (so
total - free = 900 is nonzero) but the provisioned counter zero while
provisioned_volumes is 50, the code returns the static value 20, not
50/900 as the claim, read unconditionally, requires. -/
theorem C7_counterexample :
    (update_volume_stats ⟨true, 20⟩ ⟨100, 1000, 0, 50⟩ 3).max_oversub = 20 ∧
    (20 : ℚ) ≠ 50 / (1000 - 100) := by
  constructor
  · simp [update_volume_stats]
  · norm_num

/-- C7 amended: the auto-calculated ratio provisioned_volumes / (total-free)
is reported when auto-calc is enabled, cap.provisioned is nonzero and
total - free is nonzero; in every other case — in particular whenever
auto-calc is disabled, regardless of the capacity numbers — the static
configured value is reported; the claim's concrete instance free=100,
total=1000, provisioned=50 gives 50/(1000-100). -/
theorem C7_update_volume_stats :
    (∀ conf cap t, conf.auto_calc_max_oversub = true → cap.provisioned ≠ 0 →
      cap.total - cap.free ≠ 0 →
      (update_volume_stats conf cap t).max_oversub =
        (cap.provisioned_volumes : ℚ) / ((cap.total - cap.free : Int) : ℚ)) ∧
    (∀ conf cap t, ¬(conf.auto_calc_max_oversub = true ∧ cap.provisioned ≠ 0 ∧
        cap.total - cap.free ≠ 0) →
      (update_volume_stats conf cap t).max_oversub = conf.max_over_subscription) ∧
    (∀ (s : ℚ) cap t, (update_volume_stats ⟨false, s⟩ cap t).max_oversub = s) ∧
    (∀ t, (update_volume_stats ⟨true, 20⟩ ⟨100, 1000, 50, 50⟩ t).max_oversub =
      50 / ((1000 - 100 : Int) : ℚ)) := by
  refine ⟨?_, ?_, ?_, ?_⟩
  · intro conf cap t h1 h2 h3
    simp [update_volume_stats, h1, h2, h3]
  · intro conf cap t h
    simp only [update_volume_stats]
    rw [if_neg]
    intro hc
    exact h ⟨hc.1, hc.2.1, hc.2.2⟩
  · intro s cap t
    simp [update_volume_stats]
  · intro t
    norm_num [update_volume_stats]

/-- Witness for C7 at the claim's concrete capacity numbers. -/
theorem C7_update_volume_stats_witness :
    (update_volume_stats ⟨true, 20⟩ ⟨100, 1000, 50, 50⟩ 3).max_oversub =
      (50 : ℚ) / ((1000 - 100 : Int) : ℚ) ∧
    (update_volume_stats ⟨false, 20⟩ ⟨100, 1000, 50, 50⟩ 3).max_oversub = 20 :=
  ⟨C7_update_volume_stats.1 ⟨true, 20⟩ ⟨100, 1000, 50, 50⟩ 3 rfl
      (by norm_num) (by norm_num),
   C7_update_volume_stats.2.2.1 20 ⟨100, 1000, 50, 50⟩ 3⟩

/-- C5: cloning a source volume that has at least one mapping fails
validation with the driver error, the array state is untouched and the
event trace is empty — nothing was created or attached before the
rejection. -/
theorem C5_create_cloned_volume (st : SrcArrayState) (volume_id src_id : String)
    (hmap : (st.mappings.filter (fun m => m.1 == get_volume_name src_id)).length ≠ 0) :
    create_cloned_volume st volume_id src_id =
      (Except.error "K2 driver does not support clone of a attached volume.", []) := by
  simp only [create_cloned_volume]
  rw [if_pos hmap]

/-- Witness for C5: a source volume with one active mapping. -/
theorem C5_create_cloned_volume_witness :
    (((SrcArrayState.mk ["cvg-s1"] ["cv-s1"] [("cv-s1", "host-a")]).mappings.filter
        (fun m => m.1 == get_volume_name "s1")).length ≠ 0) ∧
    create_cloned_volume ⟨["cvg-s1"], ["cv-s1"], [("cv-s1", "host-a")]⟩ "n1" "s1" =
      (Except.error "K2 driver does not support clone of a attached volume.", []) :=
  ⟨by decide,
   C5_create_cloned_volume ⟨["cvg-s1"], ["cv-s1"], [("cv-s1", "host-a")]⟩ "n1" "s1"
     (by decide)⟩

lemma not_mem_delete_by_ref (l : List String) (a : String) : a ∉ _delete_by_ref l a := by
  intro h
  simp [_delete_by_ref, List.mem_filter] at h

lemma replica_rollback_clean (vid vg_name vol_name : String) (src tgt : EPState) :
    (replica_rollback vid vg_name vol_name src tgt).2.2 =
      [DelEv.del_attempt EPName.src "replication/sessions" (get_session_name vid),
       DelEv.del_attempt EPName.tgt "replication/sessions" (get_rep_name (get_session_name vid)),
       DelEv.del_attempt EPName.tgt "volumes" (get_rep_name vol_name),
       DelEv.del_attempt EPName.src "volumes" vol_name,
       DelEv.del_attempt EPName.tgt "volume_groups" (get_rep_name vg_name),
       DelEv.del_attempt EPName.src "volume_groups" vg_name] ∧
    get_session_name vid ∉ (replica_rollback vid vg_name vol_name src tgt).1.ssns ∧
    vol_name ∉ (replica_rollback vid vg_name vol_name src tgt).1.vols ∧
    vg_name ∉ (replica_rollback vid vg_name vol_name src tgt).1.vgs ∧
    get_rep_name (get_session_name vid) ∉ (replica_rollback vid vg_name vol_name src tgt).2.1.ssns ∧
    get_rep_name vol_name ∉ (replica_rollback vid vg_name vol_name src tgt).2.1.vols ∧
    get_rep_name vg_name ∉ (replica_rollback vid vg_name vol_name src tgt).2.1.vgs := by
  refine ⟨rfl, ?_, ?_, ?_, ?_, ?_, ?_⟩ <;>
    simp only [replica_rollback] <;>
    exact not_mem_delete_by_ref _ _

/-- C1 counterexample: the replication peer search fails while the base
volume group cvg-v1 and volume cv-v1 already exist on the source (they were
created by create_volume just before the call); _create_volume_replica
raises with an empty delete-attempt trace and the end state still holds the
base volume and group, so the claimed unconditional rollback does not
happen on this failing step. -/
theorem C1_counterexample :
    _create_volume_replica false none "v1" "cvg-v1" "cv-v1"
        ⟨["cvg-v1"], ["cv-v1"], []⟩ ⟨[], [], []⟩ =
      (RepResult.failed "Unable to find K2peer in source K2:",
       ⟨["cvg-v1"], ["cv-v1"], []⟩, ⟨[], [], []⟩, []) ∧
    "cv-v1" ∈ (⟨["cvg-v1"], ["cv-v1"], []⟩ : EPState).vols ∧
    "cvg-v1" ∈ (⟨["cvg-v1"], ["cv-v1"], []⟩ : EPState).vgs := by
  refine ⟨?_, by decide, by decide⟩
  rfl

/-- C1 amended: when _create_volume_replica fails at a step of its try
block — after the replication peer was located — the routine attempts, in
source order, the deletion of the source session, target session, target
volume, source volume, target group and source group, each tolerant of the
object being absent, surfaces a driver failure carrying the failing step's
cause, and the end state holds none of those six objects; when the
peer lookup itself fails the routine raises directly with no deletion
attempt and the entry states unchanged. -/
theorem C1_create_volume_replica_rollback (f : RepFail) (vid vg_name vol_name : String)
    (src tgt : EPState) :
    (∃ src2 tgt2,
      _create_volume_replica true (some f) vid vg_name vol_name src tgt =
        (RepResult.failed (repFailCause f), src2, tgt2,
         [DelEv.del_attempt EPName.src "replication/sessions" (get_session_name vid),
          DelEv.del_attempt EPName.tgt "replication/sessions"
            (get_rep_name (get_session_name vid)),
          DelEv.del_attempt EPName.tgt "volumes" (get_rep_name vol_name),
          DelEv.del_attempt EPName.src "volumes" vol_name,
          DelEv.del_attempt EPName.tgt "volume_groups" (get_rep_name vg_name),
          DelEv.del_attempt EPName.src "volume_groups" vg_name]) ∧
      get_session_name vid ∉ src2.ssns ∧ vol_name ∉ src2.vols ∧ vg_name ∉ src2.vgs ∧
      get_rep_name (get_session_name vid) ∉ tgt2.ssns ∧
      get_rep_name vol_name ∉ tgt2.vols ∧ get_rep_name vg_name ∉ tgt2.vgs) ∧
    _create_volume_replica false (some f) vid vg_name vol_name src tgt =
      (RepResult.failed "Unable to find K2peer in source K2:", src, tgt, []) := by
  constructor
  · cases f
    case srcSsnSave =>
      obtain ⟨htr, h1, h2, h3, h4, h5, h6⟩ := replica_rollback_clean vid vg_name vol_name src tgt
      exact ⟨_, _, by simp only [_create_volume_replica]; rw [if_neg (by simp), htr], h1, h2, h3, h4, h5, h6⟩
    case peerVolSave =>
      obtain ⟨htr, h1, h2, h3, h4, h5, h6⟩ := replica_rollback_clean vid vg_name vol_name
        { src with ssns := src.ssns ++ [get_session_name vid] }
        { tgt with ssns := tgt.ssns ++ [get_rep_name (get_session_name vid)],
                   vgs := tgt.vgs ++ [get_rep_name vg_name] }
      exact ⟨_, _, by simp only [_create_volume_replica]; rw [if_neg (by simp), htr], h1, h2, h3, h4, h5, h6⟩
    case inSyncSave =>
      obtain ⟨htr, h1, h2, h3, h4, h5, h6⟩ := replica_rollback_clean vid vg_name vol_name
        { src with ssns := src.ssns ++ [get_session_name vid] }
        { tgt with ssns := tgt.ssns ++ [get_rep_name (get_session_name vid)],
                   vgs := tgt.vgs ++ [get_rep_name vg_name],
                   vols := tgt.vols ++ [get_rep_name vol_name] }
      exact ⟨_, _, by simp only [_create_volume_replica]; rw [if_neg (by simp), htr], h1, h2, h3, h4, h5, h6⟩
  · rfl

lemma check_for_status_obs (stream : Nat → SessState) (status : SessState) :
    ∀ fuel i cur tr j, _check_for_status stream status fuel i cur = some (tr, j) →
      TdEv.obs_tgt status ∈ tr ∧ ∀ e ∈ tr, poll_ev e = true := by
  intro fuel
  induction fuel with
  | zero =>
      intro i cur tr j h
      simp only [_check_for_status] at h
      by_cases hc : cur = status
      · rw [if_pos hc] at h
        cases h
        subst hc
        refine ⟨List.mem_singleton.mpr rfl, ?_⟩
        intro e he
        simp only [List.mem_singleton] at he
        subst he
        rfl
      · rw [if_neg hc] at h
        exact Option.noConfusion h
  | succ f ih =>
      intro i cur tr j h
      simp only [_check_for_status] at h
      by_cases hc : cur = status
      · rw [if_pos hc] at h
        cases h
        subst hc
        refine ⟨List.mem_singleton.mpr rfl, ?_⟩
        intro e he
        simp only [List.mem_singleton] at he
        subst he
        rfl
      · rw [if_neg hc] at h
        cases hrec : _check_for_status stream status f (i + 1) (stream i) with
        | none =>
            rw [hrec] at h
            exact Option.noConfusion h
        | some p =>
            rw [hrec] at h
            have h2 : some (TdEv.obs_tgt cur :: TdEv.refresh_tgt :: TdEv.sleep_one :: p.1, p.2) =
                some (tr, j) := h
            obtain ⟨hmem, hall⟩ := ih (i + 1) (stream i) p.1 p.2 (by rw [Prod.mk.eta]; exact hrec)
            cases h2
            refine ⟨List.mem_cons_of_mem _ (List.mem_cons_of_mem _ (List.mem_cons_of_mem _ hmem)), ?_⟩
            intro e he
            simp only [List.mem_cons] at he
            rcases he with rfl | rfl | rfl | he
            · rfl
            · rfl
            · rfl
            · exact hall e he

/-- C2: any terminating execution of the graceful teardown has the shape:
source set to suspended and saved, a poll phase of the target session, then
source set to idle and saved, a second poll phase, then the deletions with
the target session first and the source session second; the first poll
phase observes the target in state suspended and the second observes it in
state idle, and both phases consist only of state checks, re-fetches and
one-second sleeps — so neither session deletion happens before the target
has been observed suspended and then idle. -/
theorem C2_delete_volume_replica_handshake (fuel : Nat) (tgt_init : SessState)
    (stream : Nat → SessState) (tr : List TdEv)
    (h : _delete_volume_replica fuel tgt_init stream = some tr) :
    ∃ tr1 tr2,
      tr = [TdEv.set_src SessState.suspended, TdEv.save_src] ++ tr1 ++
           [TdEv.set_src SessState.idle, TdEv.save_src] ++ tr2 ++
           [TdEv.delete_tgt, TdEv.delete_src, TdEv.delete_snapshots,
            TdEv.delete_remote_vol, TdEv.delete_remote_vg] ∧
      TdEv.obs_tgt SessState.suspended ∈ tr1 ∧
      TdEv.obs_tgt SessState.idle ∈ tr2 ∧
      (∀ e ∈ tr1, poll_ev e = true) ∧
      (∀ e ∈ tr2, poll_ev e = true) := by
  unfold _delete_volume_replica at h
  cases h1 : _check_for_status stream SessState.suspended fuel 0 tgt_init with
  | none =>
      rw [h1] at h
      exact Option.noConfusion h
  | some p =>
      rw [h1] at h
      have hta : teardown_tail stream fuel p = some tr := h
      unfold teardown_tail at hta
      cases h2 : _check_for_status stream SessState.idle fuel p.2 SessState.suspended with
      | none =>
          rw [h2] at hta
          exact Option.noConfusion hta
      | some q =>
          rw [h2] at hta
          have hsome : some ([TdEv.set_src SessState.suspended, TdEv.save_src] ++ p.1 ++
              [TdEv.set_src SessState.idle, TdEv.save_src] ++ q.1 ++ teardown_deletes) =
              some tr := hta
          obtain ⟨hm1, ha1⟩ := check_for_status_obs stream SessState.suspended fuel 0 tgt_init
            p.1 p.2 (by rw [Prod.mk.eta]; exact h1)
          obtain ⟨hm2, ha2⟩ := check_for_status_obs stream SessState.idle fuel p.2
            SessState.suspended q.1 q.2 (by rw [Prod.mk.eta]; exact h2)
          exact ⟨p.1, q.1, (Option.some.inj hsome).symm, hm1, hm2, ha1, ha2⟩

/-- Witness for C2: the lagging target terminates with the expected trace
and the handshake decomposition holds for it. -/
theorem C2_delete_volume_replica_handshake_witness :
    _delete_volume_replica 5 SessState.in_sync c2_stream = some c2_trace ∧
    (∃ tr1 tr2,
      c2_trace = [TdEv.set_src SessState.suspended, TdEv.save_src] ++ tr1 ++
           [TdEv.set_src SessState.idle, TdEv.save_src] ++ tr2 ++
           [TdEv.delete_tgt, TdEv.delete_src, TdEv.delete_snapshots,
            TdEv.delete_remote_vol, TdEv.delete_remote_vg] ∧
      TdEv.obs_tgt SessState.suspended ∈ tr1 ∧
      TdEv.obs_tgt SessState.idle ∈ tr2 ∧
      (∀ e ∈ tr1, poll_ev e = true) ∧
      (∀ e ∈ tr2, poll_ev e = true)) :=
  ⟨by decide,
   C2_delete_volume_replica_handshake 5 SessState.in_sync c2_stream c2_trace (by decide)⟩

lemma set_ssn_keys (l : List (String × SessState)) (n : String) (s : SessState) (m : String) :
    (lookup_ssn (set_ssn l n s) m).isSome = (lookup_ssn l m).isSome := by
  induction l with
  | nil => rfl
  | cons a t ih =>
      by_cases hn : a.1 == n
      · simp only [set_ssn, if_pos hn, lookup_ssn]
        by_cases hm : a.1 == m
        · rw [if_pos hm, if_pos hm]
          rfl
        · rw [if_neg hm, if_neg hm]
      · simp only [set_ssn, if_neg hn, lookup_ssn]
        by_cases hm : a.1 == m
        · rw [if_pos hm, if_pos hm]
        · rw [if_neg hm, if_neg hm]
          exact ih

lemma lookup_set_ssn_self (l : List (String × SessState)) (n : String) (s : SessState)
    (h : (lookup_ssn l n).isSome = true) :
    lookup_ssn (set_ssn l n s) n = some s := by
  induction l with
  | nil => simp [lookup_ssn] at h
  | cons a t ih =>
      by_cases hn : a.1 == n
      · simp only [set_ssn, if_pos hn, lookup_ssn]
      · simp only [set_ssn, if_neg hn, lookup_ssn]
        simp only [lookup_ssn, if_neg hn] at h
        exact ih h

lemma failover_volume_ok (arr : TgtArray) (vid : String)
    (h : (lookup_ssn arr.ssns (get_rep_name (get_session_name vid))).isSome = true) :
    ∃ arr2, _failover_volume arr vid = Except.ok arr2 ∧
      arr2.vols = arr.vols ∧
      ∀ n, (lookup_ssn arr2.ssns n).isSome = (lookup_ssn arr.ssns n).isSome := by
  obtain ⟨st, hst⟩ := Option.isSome_iff_exists.mp h
  by_cases hin : st = SessState.in_sync
  · refine ⟨{ arr with ssns := set_ssn arr.ssns (get_rep_name (get_session_name vid)) SessState.failed_over }, ?_, rfl, ?_⟩
    · simp only [_failover_volume, hst, if_pos hin]
    · intro n
      exact set_ssn_keys arr.ssns (get_rep_name (get_session_name vid)) SessState.failed_over n
  · refine ⟨arr, ?_, rfl, fun n => rfl⟩
    simp only [_failover_volume, hst, if_neg hin]

lemma failover_loop_ok : ∀ (vols : List String) (arr : TgtArray),
    (∀ vid ∈ vols, arr.vols.count (get_rep_name (get_volume_name vid)) ≠ 0 →
      (lookup_ssn arr.ssns (get_rep_name (get_session_name vid))).isSome = true) →
    ∃ arrF, failover_loop arr vols =
      Except.ok (vols.map (failover_update arr), arrF) ∧
      arrF.vols = arr.vols ∧
      ∀ n, (lookup_ssn arrF.ssns n).isSome = (lookup_ssn arr.ssns n).isSome := by
  intro vols
  induction vols with
  | nil => exact fun arr _ => ⟨arr, rfl, rfl, fun n => rfl⟩
  | cons vid rest ih =>
      intro arr hs
      by_cases hv : arr.vols.count (get_rep_name (get_volume_name vid)) ≠ 0
      · obtain ⟨arr2, hfv, hvols, hkeys⟩ := failover_volume_ok arr vid
          (hs vid (List.mem_cons_self vid rest) hv)
        obtain ⟨arrF, hloop, hvF, hkF⟩ := ih arr2 (fun v hvmem hc => by
          rw [hkeys]
          exact hs v (List.mem_cons_of_mem vid hvmem) (by rwa [hvols] at hc))
        refine ⟨arrF, ?_, by rw [hvF, hvols], fun n => by rw [hkF, hkeys]⟩
        simp only [failover_loop, if_pos hv, hfv, hloop]
        have hmap : rest.map (failover_update arr2) = rest.map (failover_update arr) := by
          apply List.map_congr_left
          intro v _
          unfold failover_update
          rw [hvols]
        rw [hmap]
        have hupd : failover_update arr vid = VolUpdate.rep_failed_over vid := by
          unfold failover_update
          rw [if_pos hv]
        simp only [List.map_cons, hupd]
      · obtain ⟨arrF, hloop, hvF, hkF⟩ := ih arr
          (fun v hvmem hc => hs v (List.mem_cons_of_mem vid hvmem) hc)
        refine ⟨arrF, ?_, hvF, hkF⟩
        simp only [failover_loop, if_neg hv, hloop]
        have hupd : failover_update arr vid = VolUpdate.status_error vid := by
          unfold failover_update
          rw [if_neg hv]
        simp only [List.map_cons, hupd]

/-- C4: failover_host rejects, before touching anything, a truthy
secondary_id naming a backend other than the configured replica; otherwise
it returns the replica backend_id together with one update per volume of
the batch — failed-over when the replication-named volume exists on the
target, status error when it does not; and a volume whose target session is
in_sync has that session promoted to failed_over by _failover_volume. -/
theorem C4_failover_host :
    (∀ (backend s : String) (vols : List String) (arr : TgtArray),
      ¬(s = "") → s ≠ backend →
      failover_host backend (some s) vols arr =
        Except.error "Failover requested on non replicated backend.") ∧
    (∀ (arr : TgtArray) (vid : String),
      (arr.vols.count (get_rep_name (get_volume_name vid)) ≠ 0 →
        failover_update arr vid = VolUpdate.rep_failed_over vid) ∧
      (arr.vols.count (get_rep_name (get_volume_name vid)) = 0 →
        failover_update arr vid = VolUpdate.status_error vid)) ∧
    (∀ (backend : String) (sid : Option String) (vols : List String) (arr : TgtArray),
      (sid = none ∨ sid = some backend ∨ sid = some "") →
      (∀ vid ∈ vols, arr.vols.count (get_rep_name (get_volume_name vid)) ≠ 0 →
        (lookup_ssn arr.ssns (get_rep_name (get_session_name vid))).isSome = true) →
      ∃ arrF, failover_host backend sid vols arr =
        Except.ok (backend, vols.map (failover_update arr), arrF)) ∧
    (∀ (arr : TgtArray) (vid : String),
      lookup_ssn arr.ssns (get_rep_name (get_session_name vid)) = some SessState.in_sync →
      ∃ arr2, _failover_volume arr vid = Except.ok arr2 ∧
        lookup_ssn arr2.ssns (get_rep_name (get_session_name vid)) =
          some SessState.failed_over) := by
  refine ⟨?_, ?_, ?_, ?_⟩
  · intro backend s vols arr hs hne
    unfold failover_host
    rw [if_pos]
    constructor
    · simp [truthyStr, hs]
    · simp [hne]
  · intro arr vid
    constructor
    · intro h
      unfold failover_update
      rw [if_pos h]
    · intro h
      unfold failover_update
      rw [if_neg (by rw [h]; exact fun hh => hh rfl)]
  · intro backend sid vols arr hsid hs
    obtain ⟨arrF, hloop, _, _⟩ := failover_loop_ok vols arr hs
    refine ⟨arrF, ?_⟩
    unfold failover_host
    rw [if_neg, hloop]
    rcases hsid with rfl | rfl | rfl
    · simp [truthyStr]
    · simp
    · simp [truthyStr]
  · intro arr vid h
    refine ⟨{ arr with ssns := set_ssn arr.ssns (get_rep_name (get_session_name vid)) SessState.failed_over }, ?_, ?_⟩
    · simp [_failover_volume, h]
    · exact lookup_set_ssn_self arr.ssns (get_rep_name (get_session_name vid))
        SessState.failed_over (by rw [h]; rfl)

/-- Witness for C4: a two-volume batch against a target holding the
replication volume and in_sync session for v1 only, plus the rejection of
a foreign secondary_id. -/
theorem C4_failover_host_witness :
    failover_host "backendB" (some "other") ["v1"]
      ⟨["rcv-v1"], [("rssn-v1", SessState.in_sync)]⟩ =
      Except.error "Failover requested on non replicated backend." ∧
    (∃ arrF, failover_host "backendB" none ["v1", "v2"]
        ⟨["rcv-v1"], [("rssn-v1", SessState.in_sync)]⟩ =
      Except.ok ("backendB",
        [VolUpdate.rep_failed_over "v1", VolUpdate.status_error "v2"], arrF)) := by
  constructor
  · exact C4_failover_host.1 "backendB" "other" ["v1"]
      ⟨["rcv-v1"], [("rssn-v1", SessState.in_sync)]⟩ (by decide) (by decide)
  · obtain ⟨arrF, h⟩ := C4_failover_host.2.2.1 "backendB" none ["v1", "v2"]
      ⟨["rcv-v1"], [("rssn-v1", SessState.in_sync)]⟩ (Or.inl rfl) (by decide)
    exact ⟨arrF, by rw [h]; rfl⟩

lemma op_step_target_fixed (d : DriverEndpoints) (o : DrvOp) :
    (op_step d o).1.target = d.target := by
  cases o with
  | terminate_connection rs =>
      by_cases h : rs == "failed-over"
      · simp [op_step, h]
      · simp [op_step, h]
  | get_volume_object rs =>
      by_cases h : rs == "failed-over"
      · simp [op_step, h]
      · simp [op_step, h]

lemma op_step_swapped (d : DriverEndpoints) (o : DrvOp) (h : d.client = d.target) :
    (op_step d o).1.client = d.target ∧ (op_step d o).2 = d.target := by
  cases o with
  | terminate_connection rs =>
      by_cases hr : rs == "failed-over"
      · simp [op_step, hr]
      · simp [op_step, hr, h]
  | get_volume_object rs =>
      by_cases hr : rs == "failed-over"
      · simp [op_step, hr]
      · simp [op_step, hr, h]

lemma run_ops_swapped : ∀ (ops : List DrvOp) (d : DriverEndpoints), d.client = d.target →
    (run_ops d ops).1.client = d.target ∧ (run_ops d ops).1.target = d.target ∧
    ∀ e ∈ (run_ops d ops).2, e = d.target := by
  intro ops
  induction ops with
  | nil => exact fun d h => ⟨h, rfl, by intro e he; simp [run_ops] at he⟩
  | cons o rest ih =>
      intro d h
      have hts := op_step_target_fixed d o
      obtain ⟨hc, hu⟩ := op_step_swapped d o h
      have hnext : (op_step d o).1.client = (op_step d o).1.target := by rw [hc, hts]
      obtain ⟨ihc, iht, ihe⟩ := ih (op_step d o).1 hnext
      rw [hts] at ihc iht ihe
      refine ⟨ihc, iht, ?_⟩
      intro e he
      simp only [run_ops, List.mem_cons] at he
      rcases he with rfl | he
      · exact hu
      · exact ihe e he

/-- C10: a terminate_connection or _get_volume_object call for a volume
whose replication_status is failed-over overwrites self.client with
self.target while self.target stays fixed, and from then on every further
terminate_connection or _get_volume_object call of the same driver
instance — whatever the status of its volume — is issued against the
original target endpoint and leaves the client pinned there; no modelled
operation restores the source endpoint. -/
theorem C10_endpoint_swap (d : DriverEndpoints) (rs : String) (o : DrvOp)
    (ops : List DrvOp) (hrs : rs = "failed-over") :
    (op_step d (DrvOp.terminate_connection rs)).1.client = d.target ∧
    (op_step d (DrvOp.get_volume_object rs)).1.client = d.target ∧
    (op_step d (DrvOp.terminate_connection rs)).2 = d.target ∧
    (op_step d (DrvOp.get_volume_object rs)).2 = d.target ∧
    (op_step d o).1.target = d.target ∧
    (let d2 := (op_step d (DrvOp.terminate_connection rs)).1
     (run_ops d2 ops).1.client = d.target ∧
     ∀ e ∈ (run_ops d2 ops).2, e = d.target) := by
  subst hrs
  have h1 : (op_step d (DrvOp.terminate_connection "failed-over")).1.client = d.target := by
    simp [op_step]
  have h2 : (op_step d (DrvOp.get_volume_object "failed-over")).1.client = d.target := by
    simp [op_step]
  have h3 : (op_step d (DrvOp.terminate_connection "failed-over")).2 = d.target := by
    simp [op_step]
  have h4 : (op_step d (DrvOp.get_volume_object "failed-over")).2 = d.target := by
    simp [op_step]
  refine ⟨h1, h2, h3, h4, op_step_target_fixed d o, ?_⟩
  have hts := op_step_target_fixed d (DrvOp.terminate_connection "failed-over")
  have heq : (op_step d (DrvOp.terminate_connection "failed-over")).1.client =
      (op_step d (DrvOp.terminate_connection "failed-over")).1.target := by
    rw [h1, hts]
  obtain ⟨hc, _, he⟩ := run_ops_swapped ops
    (op_step d (DrvOp.terminate_connection "failed-over")).1 heq
  rw [hts] at hc he
  exact ⟨hc, he⟩

/-- Witness for C10: after a failed-over terminate_connection on a driver
with client 0 and target 1, a later call for a non-failed-over volume is
still issued against endpoint 1. -/
theorem C10_endpoint_swap_witness :
    (op_step (DriverEndpoints.mk 0 1) (DrvOp.terminate_connection "failed-over")).1.client = 1 ∧
    (let d2 := (op_step (DriverEndpoints.mk 0 1)
        (DrvOp.terminate_connection "failed-over")).1
     (run_ops d2 [DrvOp.get_volume_object "enabled",
        DrvOp.terminate_connection "disabled"]).1.client = 1 ∧
     ∀ e ∈ (run_ops d2 [DrvOp.get_volume_object "enabled",
        DrvOp.terminate_connection "disabled"]).2, e = 1) :=
  ⟨(C10_endpoint_swap (DriverEndpoints.mk 0 1) "failed-over"
      (DrvOp.get_volume_object "x") [] rfl).1,
   (C10_endpoint_swap (DriverEndpoints.mk 0 1) "failed-over"
      (DrvOp.get_volume_object "x")
      [DrvOp.get_volume_object "enabled", DrvOp.terminate_connection "disabled"] rfl).2.2.2.2.2⟩

lemma k2_char_ok_underscore : k2_char_ok '_' = true := by decide

lemma sanitize_char_ok (c : Char) : k2_char_ok (sanitize_char c) = true := by
  unfold sanitize_char
  by_cases h : k2_char_ok c
  · simp [h]
  · simp only [h, if_false, Bool.false_eq_true]
    exact k2_char_ok_underscore

lemma sanitize_char_idem (c : Char) : sanitize_char (sanitize_char c) = sanitize_char c := by
  unfold sanitize_char
  by_cases h : k2_char_ok c
  · simp [h]
  · simp only [h, if_false, Bool.false_eq_true, k2_char_ok_underscore, if_true]

lemma map_sanitize_of_all_ok {l : List Char} (h : ∀ c ∈ l, k2_char_ok c = true) :
    l.map sanitize_char = l := by
  induction l with
  | nil => rfl
  | cons a t ih =>
      have ha : sanitize_char a = a := by
        unfold sanitize_char
        simp [h a (List.mem_cons_self a t)]
      simp only [List.map_cons, ha, ih (fun c hc => h c (List.mem_cons_of_mem a hc))]

/-- C8: get_initiator_host_name depends only on the connector host string;
its output has length at most 32, every output character lies in the class
[0-9a-zA-Z_-], it rewrites the first 32 input characters pointwise with
every disallowed character becoming an underscore, and it is idempotent. -/
theorem C8_get_initiator_host_name (host : String) :
    (get_initiator_host_name host).length ≤ 32 ∧
    (∀ c ∈ (get_initiator_host_name host).data, k2_char_ok c = true) ∧
    (get_initiator_host_name host).data = (host.data.take 32).map sanitize_char ∧
    (∀ c, k2_char_ok c = false → sanitize_char c = '_') ∧
    get_initiator_host_name (get_initiator_host_name host) = get_initiator_host_name host := by
  have hmem : ∀ c ∈ (get_initiator_host_name host).data, k2_char_ok c = true := by
    intro c hc
    have hc2 : c ∈ host.data.map sanitize_char := List.mem_of_mem_take hc
    obtain ⟨a, _, rfl⟩ := List.mem_map.mp hc2
    exact sanitize_char_ok a
  refine ⟨?_, hmem, ?_, ?_, ?_⟩
  · show ((host.data.map sanitize_char).take 32).length ≤ 32
    rw [List.length_take]
    exact min_le_left _ _
  · show (host.data.map sanitize_char).take 32 = (host.data.take 32).map sanitize_char
    rw [List.map_take]
  · intro c hc
    unfold sanitize_char
    simp [hc]
  · show String.mk (((get_initiator_host_name host).data.map sanitize_char).take 32) =
      get_initiator_host_name host
    rw [map_sanitize_of_all_ok hmem]
    show String.mk (((host.data.map sanitize_char).take 32).take 32) = _
    rw [List.take_take]
    simp [get_initiator_host_name]

/-- Witness for C8 at a concrete connector host string. -/
theorem C8_get_initiator_host_name_witness :
    k2_char_ok ':' = false ∧
    sanitize_char ':' = '_' ∧
    (get_initiator_host_name "my Host:01").length ≤ 32 ∧
    get_initiator_host_name (get_initiator_host_name "my Host:01") =
      get_initiator_host_name "my Host:01" :=
  ⟨by decide,
   (C8_get_initiator_host_name "my Host:01").2.2.2.1 ':' (by decide),
   (C8_get_initiator_host_name "my Host:01").1,
   (C8_get_initiator_host_name "my Host:01").2.2.2.2⟩

/-- C9: the five name-derivation helpers produce exactly the documented
prefixed names, each is injective (distinct identifiers give distinct names
of the same kind), and get_rep_name prepends the fixed replication marker
to its argument. -/
theorem C9_name_derivation :
    (∀ v, get_volume_group_name v = "cvg-" ++ v) ∧
    (∀ v, get_volume_name v = "cv-" ++ v) ∧
    (∀ v, get_session_name v = "ssn-" ++ v) ∧
    (∀ s, get_snap_name s = "cs-" ++ s) ∧
    (∀ v, get_view_name v = "cview-" ++ v) ∧
    (∀ a b, a ≠ b → get_volume_group_name a ≠ get_volume_group_name b) ∧
    (∀ a b, a ≠ b → get_volume_name a ≠ get_volume_name b) ∧
    (∀ a b, a ≠ b → get_session_name a ≠ get_session_name b) ∧
    (∀ a b, a ≠ b → get_snap_name a ≠ get_snap_name b) ∧
    (∀ a b, a ≠ b → get_view_name a ≠ get_view_name b) ∧
    (∀ x, get_rep_name x = "r" ++ x) :=
  ⟨fun _ => rfl, fun _ => rfl, fun _ => rfl, fun _ => rfl, fun _ => rfl,
   fun _ _ hab h => hab (string_append_left_cancel h),
   fun _ _ hab h => hab (string_append_left_cancel h),
   fun _ _ hab h => hab (string_append_left_cancel h),
   fun _ _ hab h => hab (string_append_left_cancel h),
   fun _ _ hab h => hab (string_append_left_cancel h),
   fun _ => rfl⟩

/-- Witness for C9 at concrete identifiers. -/
theorem C9_name_derivation_witness :
    ("vol1" : String) ≠ "vol2" ∧
    get_volume_group_name "vol1" ≠ get_volume_group_name "vol2" ∧
    get_rep_name "cv-vol1" = "r" ++ "cv-vol1" :=
  ⟨by decide,
   C9_name_derivation.2.2.2.2.2.1 "vol1" "vol2" (by decide),
   C9_name_derivation.2.2.2.2.2.2.2.2.2.2 "cv-vol1"⟩
